import Mathlib

/-!
Shallow embedding of the `TreasureHuntForm` React component
(src/unnamed/part_000): form state, validation, matrix resizing,
numeric-input filtering, and the solve/search HTTP flows, together with a
small event machine for the temporal and invariant properties.

Modelling conventions:
* JS strings are `String`, JS numbers arising from `parseInt(s, 10)` are
  `Option Int` (`none` plays the role of `NaN`; JS float precision for
  astronomically long digit strings is not modelled).
* JSON values are the `Json` inductive below; `response.json()` is the
  `parsed` field of a `FetchBody` (`none` when the body text is not valid
  JSON), `response.text()` is its `raw` field.
* React state updates are explicit state-passing on `FormState`; an
  asynchronous handler is split into its synchronous prefix and the
  continuation run when the fetch settles.
-/

/-! ## JS string and number primitives -/

/-- Whitespace characters skipped by JS `parseInt` (the common ASCII ones). -/
def jsWhitespace (c : Char) : Bool :=
  c == ' ' || c == '\t' || c == '\n' || c == '\r'

/-- Decimal digit test, i.e. the JS regex character class `\d`. -/
def digitChar (c : Char) : Bool :=
  '0' ≤ c && c ≤ '9'

/-- Numeric value of a maximal leading run of decimal digits. -/
def digitsToNat (cs : List Char) : Nat :=
  (cs.takeWhile digitChar).foldl (fun a c => a * 10 + (c.toNat - 48)) 0

/-- Whether a character list starts with at least one decimal digit. -/
def hasLeadingDigit (cs : List Char) : Bool :=
  match cs with
  | [] => false
  | c :: _ => digitChar c

/-- JS `parseInt(s, 10)`: skip leading whitespace, read an optional sign and
then a maximal run of decimal digits; `none` models `NaN` (no digits). -/
def jsParseInt (s : String) : Option Int :=
  let cs := s.data.dropWhile jsWhitespace
  match cs with
  | '-' :: rest =>
      if hasLeadingDigit rest then some (-(digitsToNat rest : Int)) else none
  | '+' :: rest =>
      if hasLeadingDigit rest then some ((digitsToNat rest : Int)) else none
  | l =>
      if hasLeadingDigit l then some ((digitsToNat l : Int)) else none

/-- JS test of `numVal > 0` where `numVal` may be `NaN`: `NaN > 0` is false. -/
def jsPos (v : Option Int) : Bool :=
  match v with
  | none => false
  | some k => decide (0 < k)

/-- JS test of `numVal <= 0` where `numVal` may be `NaN`: `NaN <= 0` is false. -/
def jsNonPos (v : Option Int) : Bool :=
  match v with
  | none => false
  | some k => decide (k ≤ 0)

/-- The `Nat` a positive parsed value denotes (0 for `NaN`/non-positive);
used to index the loops which only run when the value is positive. -/
def jsToNat (v : Option Int) : Nat :=
  match v with
  | none => 0
  | some k => k.toNat

/-- The JS regex test `/^\d*$/` (empty string or digits only). -/
def allDigits (s : String) : Bool :=
  s.data.all digitChar

/-- The JS regex test `/^[1-9]\d*$/` (a positive integer with no leading zero). -/
def posIntShape (s : String) : Bool :=
  match s.data with
  | [] => false
  | c :: cs => ('1' ≤ c && c ≤ '9') && cs.all digitChar

/-- JS `value.startsWith('0')` (the handler only tests the one-character
prefix `'0'`). -/
def startsWithZero (s : String) : Bool :=
  match s.data with
  | [] => false
  | c :: _ => c == '0'

/-- JS `value.replace(/^0+/, '')`. -/
def stripLeadingZeros (s : String) : String :=
  String.mk (s.data.dropWhile (fun c => c == '0'))

/-- JS `a || b` for strings: produce `b` when `a` is falsy (empty). -/
def jsOrElse (a b : String) : String :=
  if a = "" then b else a

/-! ## JSON values and JS coercions -/

/-- A parsed JSON value, used for response bodies. -/
inductive Json where
  | null : Json
  | bool (b : Bool) : Json
  | num (v : Int) : Json
  | str (s : String) : Json
  | arr (es : List Json) : Json
  | obj (fs : List (String × Json)) : Json

/-- Discriminator for `Json.null` (the nested inductive does not support
derived decidable equality). -/
def Json.isNull : Json → Bool
  | .null => true
  | _ => false

/-- JS property read `v[key]` on a parsed JSON value: `none` models
`undefined` (absent key, or a non-object receiver such as a number). -/
def Json.get : Json → String → Option Json
  | .obj fs, k => fs.lookup k
  | _, _ => none

/-- JS truthiness of a possibly-undefined value (`undefined`, `null`,
`false`, `0`, and `""` are falsy). -/
def jsTruthy (v : Option Json) : Bool :=
  match v with
  | none => false
  | some .null => false
  | some (.bool b) => b
  | some (.num k) => decide (k ≠ 0)
  | some (.str s) => decide (s ≠ "")
  | some (.arr _) => true
  | some (.obj _) => true

/-- JS `String(v)` coercion. Arrays follow `Array.prototype.toString`
(elements joined with `","`, null elements contributing nothing); plain
objects give `"[object Object]"`. -/
def jsString : Json → String
  | .null => "null"
  | .bool b => if b then "true" else "false"
  | .num v => toString v
  | .str s => s
  | .obj _ => "[object Object]"
  | .arr es => String.intercalate "," (es.attach.map (fun e =>
      if e.1.isNull then "" else jsString e.1))
decreasing_by
  have := List.sizeOf_lt_of_mem e.2
  simp at this ⊢
  omega

/-- JS `JSON.stringify` of a parsed value (string escaping not modelled;
no claim depends on the serialized text of a re-stringified error body). -/
def Json.stringify : Json → String
  | .null => "null"
  | .bool b => if b then "true" else "false"
  | .num v => toString v
  | .str s => "\"" ++ s ++ "\""
  | .arr es => "[" ++ String.intercalate "," (es.attach.map (fun e => Json.stringify e.1)) ++ "]"
  | .obj fs => "\x7b" ++ String.intercalate "," (fs.attach.map (fun f => "\"" ++ f.1.1 ++ "\":" ++ Json.stringify f.1.2)) ++ "\x7d"
decreasing_by
  · have := List.sizeOf_lt_of_mem e.2
    simp at this ⊢
    omega
  · rcases f with ⟨⟨a, b⟩, hf⟩
    have := List.sizeOf_lt_of_mem hf
    simp at this ⊢
    omega

/-- JS `a || b || c` as it appears in `errorData.message || errorData.title
|| fallback`: the first truthy field, coerced to a string at its use site,
else the fallback string. -/
def jsFirstTruthy (a b : Option Json) (c : String) : String :=
  if jsTruthy a then jsString (a.getD Json.null)
  else if jsTruthy b then jsString (b.getD Json.null)
  else c

/-! ## HTTP response model -/

/-- The body of a settled `fetch` response: `raw` is the body's text,
`parsed` is what a first `response.json()` read resolves to (`none` when
the text is not valid JSON and `response.json()` rejects). Any body read
consumes the stream, so a second read — `response.text()` after
`response.json()` — rejects with a `TypeError` regardless of `raw`. -/
structure FetchBody where
  raw : String
  parsed : Option Json

/-- A settled `fetch` response (`ok` is `response.ok`, i.e. 2xx status). -/
structure HttpResponse where
  ok : Bool
  status : Nat
  statusText : String
  body : FetchBody

/-- Stands in for the engine-defined `SyntaxError` message produced when
`response.json()` rejects on a non-JSON body; its exact text is
environment-specific and no claim depends on it. -/
def jsonSyntaxErrorMessage : String := "Unexpected token in JSON"

/-- Stands in for the engine-defined `TypeError` message produced when a
body read (`response.text()`) follows `response.json()` on the same
response: the body stream is already consumed, so the call rejects. The
exact text is engine-specific (Chromium says `body stream already read`);
claims depend only on it being the surfaced message, not on its text. -/
def bodyConsumedErrorMessage : String :=
  "Failed to execute text on Response: body stream already read"

/-! ## Form state -/

/-- The request payload built by `handleSubmit` (interface
`TreasureHuntInput`); fields are `parseInt` results, so `Option Int`. -/
structure TreasureHuntInput where
  n : Option Int
  m : Option Int
  p : Option Int
  matrix : List (List (Option Int))

/-- The validation error object (interface `ValidationErrors`); the
matrix component is an association list keyed by `"row-col"` strings, in
the insertion order of the validation loops. JS `delete` of an absent
`matrix` key and an absent object are both `none`. -/
structure ValidationErrors where
  n : Option String
  m : Option String
  p : Option String
  matrix : Option (List (String × String))

/-- The component's `useState` cells. Results are stored as the parsed
JSON value the fetch produced (the TS annotations do not validate shape). -/
structure FormState where
  n : String
  m : String
  p : String
  matrix : List (List String)
  result : Option Json
  error : Option String
  loading : Bool
  validationErrors : ValidationErrors
  searchId : String
  searchResult : Option Json
  searchError : Option String
  searching : Bool

/-- The initial state of every `useState` cell. -/
def initialState : FormState :=
  { n := "", m := "", p := "", matrix := []
  , result := none, error := none, loading := false
  , validationErrors := { n := none, m := none, p := none, matrix := none }
  , searchId := "", searchResult := none, searchError := none, searching := false }

/-- Cell read `matrix[i]?.[j]`: `none` models `undefined`. -/
def cellAt (mx : List (List String)) (i j : Nat) : Option String :=
  mx[i]?.bind (fun row => row[j]?)

/-! ## Validation (`validateForm`) -/

/-- The `"i-j"` key of a matrix cell in the error map. -/
def cellKey (i j : Nat) : String :=
  toString i ++ "-" ++ toString j

/-- The check of one matrix cell inside `validateForm`'s loops:
`undefined`, empty or unparseable is `'Required'`; with a valid positive
`P`, a parsed value outside `[1, P]` is out of range. -/
def cellCheck (numP : Option Int) (mx : List (List String)) (i j : Nat) : Option String :=
  match cellAt mx i j with
  | none => some "Required"
  | some cellValue =>
    if cellValue = "" then some "Required"
    else
      match jsParseInt cellValue with
      | none => some "Required"
      | some cellNum =>
        match numP with
        | none => none
        | some pv =>
          if 0 < pv ∧ (cellNum < 1 ∨ pv < cellNum) then
            some ("Must be between 1 and " ++ toString pv)
          else none

/-- The `matrixErrors` object accumulated by `validateForm`'s nested
loops, which only run when both parsed dimensions are positive. -/
def matrixErrorsList (numN numM numP : Option Int) (mx : List (List String)) :
    List (String × String) :=
  if jsPos numN && jsPos numM then
    ((List.range (jsToNat numN)).map (fun i =>
      (List.range (jsToNat numM)).filterMap (fun j =>
        (cellCheck numP mx i j).map (fun msg => (cellKey i j, msg))))).flatten
  else []

/-- `validateForm`: returns the `isValid` flag together with the error
object it stores into `validationErrors`. `!n || numN <= 0` is false for a
non-empty unparseable `n` because `NaN <= 0` is false in JS. -/
def validateForm (n m p : String) (mx : List (List String)) :
    Bool × ValidationErrors :=
  let numN := jsParseInt n
  let numM := jsParseInt m
  let numP := jsParseInt p
  let nErr : Option String :=
    if n = "" || jsNonPos numN then some "N must be a positive integer." else none
  let mErr : Option String :=
    if m = "" || jsNonPos numM then some "M must be a positive integer." else none
  let pErr : Option String :=
    if p = "" || jsNonPos numP then some "P must be a positive integer." else none
  let mtx := matrixErrorsList numN numM numP mx
  let isValid := nErr.isNone && mErr.isNone && pErr.isNone && mtx.isEmpty
  (isValid,
   { n := nErr, m := mErr, p := pErr
   , matrix := if mtx.isEmpty then none else some mtx })

/-! ## Matrix resize effect -/

/-- The body of the `useEffect` resize in the positive-dimensions case: a
fresh `numN × numM` grid of `''`, overwritten with every previous value
defined at an index valid in both shapes. -/
def resizeMatrix (numN numM : Nat) (prev : List (List String)) :
    List (List String) :=
  (List.range numN).map (fun i =>
    (List.range numM).map (fun j => (cellAt prev i j).getD ""))

/-- The whole resize `useEffect` run against a state: rebuild the matrix
when both parsed dimensions are positive (also resetting a present matrix
error object to `{}`), otherwise clear the matrix to `[]`. -/
def runResizeEffect (st : FormState) : FormState :=
  let numN := jsParseInt st.n
  let numM := jsParseInt st.m
  if jsPos numN && jsPos numM then
    let st1 := { st with matrix := resizeMatrix (jsToNat numN) (jsToNat numM) st.matrix }
    match st.validationErrors.matrix with
    | some _ =>
        { st1 with validationErrors := { st1.validationErrors with matrix := some [] } }
    | none => st1
  else { st with matrix := [] }

/-! ## Input handlers -/

/-- Drop the scalar error entry for `field` from the error object
(the `delete newErrors[field]` in `handleNumericInputChange`). -/
def clearScalarError (field : String) (ve : ValidationErrors) : ValidationErrors :=
  if field = "n" then { ve with n := none }
  else if field = "m" then { ve with m := none }
  else if field = "p" then { ve with p := none }
  else ve

/-- `handleNumericInputChange` for one change event: from the current
stored string and the event value, the new stored string and error object.
The accepted-value branch clears the field's error; the dead `'0'` branch
keeps everything; the leading-zeros branch strips them without clearing
errors; otherwise the keystroke is rejected. -/
def handleNumericInputChange (allowZero : Bool) (field : String)
    (current value : String) (ve : ValidationErrors) :
    String × ValidationErrors :=
  if value = "" || (if allowZero then allDigits value else posIntShape value) then
    (value, clearScalarError field ve)
  else if value = "0" && !allowZero && field ≠ "n" && field ≠ "m" && field ≠ "p" then
    (current, ve)
  else if !allowZero && startsWithZero value && value.length > 1 then
    (stripLeadingZeros value, ve)
  else (current, ve)

/-- Drop one cell's entry from the matrix error object, collapsing an
emptied object to `undefined` (`handleMatrixCellChange`'s cleanup). -/
def clearCellError (i j : Nat) (ve : ValidationErrors) : ValidationErrors :=
  match ve.matrix with
  | none => ve
  | some entries =>
    match entries.lookup (cellKey i j) with
    | none => ve
    | some msg =>
      if msg = "" then ve
      else
        let rest := entries.filter (fun e => e.1 ≠ cellKey i j)
        { ve with matrix := if rest.isEmpty then none else some rest }

/-- `handleMatrixCellChange i j` for one change event: accept empty or
digit-only strings, writing the cell (the handler only exists for rendered
cells, hence in-bounds indices) and clearing that cell's error. -/
def handleMatrixCellChange (i j : Nat) (value : String) (st : FormState) : FormState :=
  if value = "" || allDigits value then
    { st with
      matrix := st.matrix.set i ((st.matrix.getD i []).set j value)
    , validationErrors := clearCellError i j st.validationErrors }
  else st

/-- The `N` change handler followed by the resize effect, which React
re-runs only when the rendered `n` actually changed. -/
def stepChangeN (st : FormState) (value : String) : FormState :=
  let r := handleNumericInputChange false "n" st.n value st.validationErrors
  let st1 := { st with n := r.1, validationErrors := r.2 }
  if r.1 = st.n then st1 else runResizeEffect st1

/-- The `M` change handler followed by the resize effect. -/
def stepChangeM (st : FormState) (value : String) : FormState :=
  let r := handleNumericInputChange false "m" st.m value st.validationErrors
  let st1 := { st with m := r.1, validationErrors := r.2 }
  if r.1 = st.m then st1 else runResizeEffect st1

/-- The `P` change handler (the resize effect does not depend on `p`). -/
def stepChangeP (st : FormState) (value : String) : FormState :=
  let r := handleNumericInputChange false "p" st.p value st.validationErrors
  { st with p := r.1, validationErrors := r.2 }

/-- The Result ID field's change handler stores the event value with no
filtering: `onChange={(e) => setSearchId(e.target.value)}`. -/
def stepSearchIdChange (st : FormState) (value : String) : FormState :=
  { st with searchId := value }

/-- An `onBlur` of N/M/P runs `validateForm` and stores its error object. -/
def stepBlurValidate (st : FormState) : FormState :=
  { st with validationErrors := (validateForm st.n st.m st.p st.matrix).2 }

/-! ## Solve flow (`handleSubmit`) -/

/-- `isFormPotentiallyValid`, the looser check gating the Solve button. -/
def isFormPotentiallyValid (st : FormState) : Bool :=
  jsPos (jsParseInt st.n) && jsPos (jsParseInt st.m) && jsPos (jsParseInt st.p)
    && (st.matrix.length == jsToNat (jsParseInt st.n))

/-- The Solve button's `disabled` prop: `loading || !isFormPotentiallyValid()`. -/
def solveDisabled (st : FormState) : Bool :=
  st.loading || !isFormPotentiallyValid st

/-- The request payload `inputData` built from the current state. -/
def buildInput (st : FormState) : TreasureHuntInput :=
  { n := jsParseInt st.n
  , m := jsParseInt st.m
  , p := jsParseInt st.p
  , matrix := st.matrix.map (fun row => row.map jsParseInt) }

/-- Serialization of one number of the payload (`NaN` stringifies to `null`). -/
def jsonNumField (v : Option Int) : String :=
  match v with
  | none => "null"
  | some k => toString k

/-- `JSON.stringify(inputData)`: the exact POST body text. -/
def jsonOfInput (d : TreasureHuntInput) : String :=
  "\x7b\"n\":" ++ jsonNumField d.n ++ ",\"m\":" ++ jsonNumField d.m
    ++ ",\"p\":" ++ jsonNumField d.p ++ ",\"matrix\":["
    ++ String.intercalate "," (d.matrix.map (fun row =>
         "[" ++ String.intercalate "," (row.map jsonNumField) ++ "]"))
    ++ "]\x7d"

/-- The synchronous prefix of `handleSubmit` after validation passed:
`setLoading(true)`, clear `error` and `result`, store the fresh error
object. -/
def startSolveState (st : FormState) (errs : ValidationErrors) : FormState :=
  { st with loading := true, error := none, result := none, validationErrors := errs }

/-- The message the outer solve `catch` receives for a non-ok response.
Only a non-null parsed JSON body reaches the constructed `HTTP error`
message: `response.json()` consumes the body stream even when it rejects,
so the `catch (parseError)` fallback `await response.text()` rejects with
a body-already-read `TypeError` that escapes the inner `catch`, and the
raw-text fallback is unreachable. A JSON `null` body takes the same path:
`errorData.message` throws inside the `try` after the stream is already
consumed, and the `response.text()` in the `catch` rejects likewise. -/
def solveCatchMessage (status : Nat) (body : FetchBody) : String :=
  match body.parsed with
  | none => bodyConsumedErrorMessage
  | some .null => bodyConsumedErrorMessage
  | some j =>
      "HTTP error " ++ toString status ++ ": " ++
        jsFirstTruthy (j.get "message") (j.get "title") j.stringify

/-- The `(result, error)` pair the solve `try`/`catch` ends with, given
the settled response. -/
def solveOutcome (resp : HttpResponse) : Option Json × Option String :=
  if resp.ok then
    match resp.body.parsed with
    | some j => (some j, none)
    | none =>
        (none, some (jsOrElse jsonSyntaxErrorMessage
          "An error occurred while communicating with the server."))
  else
    (none, some (jsOrElse (solveCatchMessage resp.status resp.body)
      "An error occurred while communicating with the server."))

/-- The state after the solve fetch settles (including the `finally`). -/
def settleSolveState (st : FormState) (resp : HttpResponse) : FormState :=
  { st with
    result := (solveOutcome resp).1
  , error := (solveOutcome resp).2
  , loading := false }

/-- The state after the solve fetch itself rejects (network failure) with
message `msg`. -/
def rejectSolveState (st : FormState) (msg : String) : FormState :=
  { st with
    error := some (jsOrElse msg "An error occurred while communicating with the server.")
  , loading := false }

/-- The whole `handleSubmit` flow against a settled response: the issued
POST payload (`none` when validation blocks submission) and the final
state. -/
def handleSubmit (st : FormState) (resp : HttpResponse) :
    Option TreasureHuntInput × FormState :=
  let v := validateForm st.n st.m st.p st.matrix
  if v.1 then
    (some (buildInput st), settleSolveState (startSolveState st v.2) resp)
  else
    (none, { st with validationErrors := v.2 })

/-- How a JSX expression child renders: `undefined`, `null` and booleans
render nothing; other values render by string coercion. -/
def renderJsxChild (v : Option Json) : String :=
  match v with
  | none => ""
  | some .null => ""
  | some (.bool _) => ""
  | some j => jsString j

/-- The success `Alert`'s two `Typography` lines, rendered only when
`result && !loading`. -/
def renderResultAlert (st : FormState) : Option (String × String) :=
  if jsTruthy st.result && !st.loading then
    match st.result with
    | some r =>
        some ("Calculation ID: " ++ renderJsxChild (r.get "id"),
              "Minimum Fuel Required: " ++ renderJsxChild (r.get "minimumFuel"))
    | none => none
  else none

/-! ## Search flow (`handleSearch`) -/

/-- The guard `isNaN(id) || id <= 0` on the parsed search id. -/
def searchIdInvalid (s : String) : Bool :=
  match jsParseInt s with
  | none => true
  | some v => decide (v ≤ 0)

/-- The synchronous prefix of `handleSearch` after the id guard:
`setSearching(true)`, clear `searchError` and `searchResult`. -/
def startSearchState (st : FormState) : FormState :=
  { st with searching := true, searchError := none, searchResult := none }

/-- The `errorMessage` for a non-ok lookup response: the structured
`message`/`title` field when the body parses (a `null` body throws on
property access, caught by the same fallback), else the status-based
message extended with `statusText`. -/
def searchErrorMessage (status : Nat) (statusText : String) (body : FetchBody) : String :=
  let base := "Error: " ++ toString status
  match body.parsed with
  | none => base ++ " - " ++ statusText
  | some .null => base ++ " - " ++ statusText
  | some j => jsFirstTruthy (j.get "message") (j.get "title") base

/-- The `(searchResult, searchError)` pair the lookup `try`/`catch` ends
with, given the settled response. -/
def searchOutcome (resp : HttpResponse) : Option Json × Option String :=
  if resp.ok then
    match resp.body.parsed with
    | some j => (some j, none)
    | none => (none, some (jsOrElse jsonSyntaxErrorMessage "Failed to fetch result"))
  else
    (none, some (jsOrElse
      (searchErrorMessage resp.status resp.statusText resp.body)
      "Failed to fetch result"))

/-- The state after the lookup fetch settles (including the `finally`). -/
def settleSearchState (st : FormState) (resp : HttpResponse) : FormState :=
  { st with
    searchResult := (searchOutcome resp).1
  , searchError := (searchOutcome resp).2
  , searching := false }

/-- The state after the lookup fetch itself rejects with message `msg`. -/
def rejectSearchState (st : FormState) (msg : String) : FormState :=
  { st with
    searchError := some (jsOrElse msg "Failed to fetch result")
  , searching := false }

/-- The whole `handleSearch` flow against a settled response: the id of
the issued GET (`none` when the guard returns early) and the final state. -/
def handleSearch (st : FormState) (resp : HttpResponse) :
    Option Int × FormState :=
  if searchIdInvalid st.searchId then
    (none, { st with searchError := some "Please enter a valid positive ID number" })
  else
    (jsParseInt st.searchId, settleSearchState (startSearchState st) resp)

/-- The Search button's `disabled` prop: `searching || !searchId`. -/
def searchDisabled (st : FormState) : Bool :=
  st.searching || (st.searchId == "")

/-! ## UI event machine

The component is single-threaded and event-driven: every state change is
one of the handlers above, and each of the two fetches is split into its
click (start) and its settlement. A click can only be delivered while the
corresponding button is enabled. -/

/-- The machine state: the component state plus one outstanding-request
flag per flow. -/
structure Machine where
  form : FormState
  solvePending : Bool
  searchPending : Bool

/-- Labels for the machine's events. -/
inductive Act where
  | editN (v : String)
  | editM (v : String)
  | editP (v : String)
  | editCell (i j : Nat) (v : String)
  | editSearchId (v : String)
  | blurValidate
  | clickSolve
  | solveSettled (resp : HttpResponse)
  | solveRejected (msg : String)
  | clickSearch
  | searchSettled (resp : HttpResponse)
  | searchRejected (msg : String)

/-- One machine step. Cell edits exist only for rendered cells, hence the
in-bounds hypotheses; clicks carry the enabled-button hypothesis. -/
inductive MStep : Act → Machine → Machine → Prop where
  | editN (s : Machine) (v : String) :
      MStep (.editN v) s { s with form := stepChangeN s.form v }
  | editM (s : Machine) (v : String) :
      MStep (.editM v) s { s with form := stepChangeM s.form v }
  | editP (s : Machine) (v : String) :
      MStep (.editP v) s { s with form := stepChangeP s.form v }
  | editCell (s : Machine) (i j : Nat) (v : String)
      (hi : i < s.form.matrix.length)
      (hj : j < (s.form.matrix.getD i []).length) :
      MStep (.editCell i j v) s { s with form := handleMatrixCellChange i j v s.form }
  | editSearchId (s : Machine) (v : String) :
      MStep (.editSearchId v) s { s with form := stepSearchIdChange s.form v }
  | blurValidate (s : Machine) :
      MStep .blurValidate s { s with form := stepBlurValidate s.form }
  | clickSolveValid (s : Machine)
      (hd : solveDisabled s.form = false)
      (hv : (validateForm s.form.n s.form.m s.form.p s.form.matrix).1 = true) :
      MStep .clickSolve s
        { s with
          form := startSolveState s.form
                    (validateForm s.form.n s.form.m s.form.p s.form.matrix).2
        , solvePending := true }
  | clickSolveInvalid (s : Machine)
      (hd : solveDisabled s.form = false)
      (hv : (validateForm s.form.n s.form.m s.form.p s.form.matrix).1 = false) :
      MStep .clickSolve s
        { s with
          form := { s.form with
            validationErrors :=
              (validateForm s.form.n s.form.m s.form.p s.form.matrix).2 } }
  | solveSettled (s : Machine) (resp : HttpResponse)
      (hp : s.solvePending = true) :
      MStep (.solveSettled resp) s
        { s with form := settleSolveState s.form resp, solvePending := false }
  | solveRejected (s : Machine) (msg : String)
      (hp : s.solvePending = true) :
      MStep (.solveRejected msg) s
        { s with form := rejectSolveState s.form msg, solvePending := false }
  | clickSearchInvalid (s : Machine)
      (hd : searchDisabled s.form = false)
      (hv : searchIdInvalid s.form.searchId = true) :
      MStep .clickSearch s
        { s with form := { s.form with
            searchError := some "Please enter a valid positive ID number" } }
  | clickSearchValid (s : Machine)
      (hd : searchDisabled s.form = false)
      (hv : searchIdInvalid s.form.searchId = false) :
      MStep .clickSearch s
        { s with form := startSearchState s.form, searchPending := true }
  | searchSettled (s : Machine) (resp : HttpResponse)
      (hp : s.searchPending = true) :
      MStep (.searchSettled resp) s
        { s with form := settleSearchState s.form resp, searchPending := false }
  | searchRejected (s : Machine) (msg : String)
      (hp : s.searchPending = true) :
      MStep (.searchRejected msg) s
        { s with form := rejectSearchState s.form msg, searchPending := false }

/-- The machine's initial state: the component just mounted (the mount
run of the resize effect clears an already-empty matrix). -/
def initialMachine : Machine :=
  { form := initialState, solvePending := false, searchPending := false }

/-- States reachable from the initial machine by event steps. -/
inductive Reach : Machine → Prop where
  | init : Reach initialMachine
  | step {s s' : Machine} {a : Act} (h : Reach s) (hs : MStep a s s') : Reach s'

/-! ## General list helpers -/

theorem getElem?_range_map {α : Type} (f : Nat → α) (n i : Nat) :
    ((List.range n).map f)[i]? = if i < n then some (f i) else none := by
  by_cases h : i < n
  · simp [List.getElem?_map, List.getElem?_range h, h]
  · have hlen : ((List.range n).map f).length ≤ i := by
      simpa using Nat.le_of_not_lt h
    simp [h, List.getElem?_eq_none hlen]

theorem flatten_range_map_nil {α : Type} (f : Nat → List α) :
    ∀ n : Nat, (∀ i, i < n → f i = []) → ((List.range n).map f).flatten = []
  | 0, _ => by simp
  | n+1, h => by
    rw [List.range_succ, List.map_append, List.flatten_append,
      flatten_range_map_nil f n (fun i hi => h i (Nat.lt_succ_of_lt hi))]
    simp [h n (Nat.lt_succ_self n)]

theorem flatten_range_map_single {α : Type} (f : Nat → List α) :
    ∀ n i0 : Nat, i0 < n → (∀ i, i < n → i ≠ i0 → f i = []) →
      ((List.range n).map f).flatten = f i0
  | 0, i0, h, _ => absurd h (Nat.not_lt_zero i0)
  | n+1, i0, h, hrest => by
    rw [List.range_succ, List.map_append, List.flatten_append]
    rcases Nat.lt_succ_iff_lt_or_eq.mp h with hlt | heq
    · rw [flatten_range_map_single f n i0 hlt
        (fun i hi hne => hrest i (Nat.lt_succ_of_lt hi) hne)]
      have hn0 : n ≠ i0 := fun hc => absurd (hc ▸ hlt) (Nat.lt_irrefl n)
      simp [hrest n (Nat.lt_succ_self n) hn0]
    · subst heq
      rw [flatten_range_map_nil f i0
        (fun i hi => hrest i (Nat.lt_succ_of_lt hi) (Nat.ne_of_lt hi))]
      simp

theorem filterMap_range_nil {α : Type} (f : Nat → Option α) :
    ∀ n : Nat, (∀ j, j < n → f j = none) → (List.range n).filterMap f = []
  | 0, _ => by simp
  | n+1, h => by
    rw [List.range_succ, List.filterMap_append,
      filterMap_range_nil f n (fun j hj => h j (Nat.lt_succ_of_lt hj))]
    simp [h n (Nat.lt_succ_self n)]

theorem filterMap_range_single {α : Type} (f : Nat → Option α) (e : α) :
    ∀ n j0 : Nat, j0 < n → f j0 = some e → (∀ j, j < n → j ≠ j0 → f j = none) →
      (List.range n).filterMap f = [e]
  | 0, j0, h, _, _ => absurd h (Nat.not_lt_zero j0)
  | n+1, j0, h, he, hrest => by
    rw [List.range_succ, List.filterMap_append]
    rcases Nat.lt_succ_iff_lt_or_eq.mp h with hlt | heq
    · rw [filterMap_range_single f e n j0 hlt he
        (fun j hj hne => hrest j (Nat.lt_succ_of_lt hj) hne)]
      have hn0 : n ≠ j0 := fun hc => absurd (hc ▸ hlt) (Nat.lt_irrefl n)
      simp [hrest n (Nat.lt_succ_self n) hn0]
    · subst heq
      rw [filterMap_range_nil f j0
        (fun j hj => hrest j (Nat.lt_succ_of_lt hj) (Nat.ne_of_lt hj))]
      simp [he]

theorem mem_set_elim {α : Type} {b a : α} :
    ∀ (l : List α) (i : Nat), b ∈ l.set i a → b ∈ l ∨ b = a
  | [], i, h => by simp at h
  | x :: xs, 0, h => by
    rcases List.mem_cons.mp h with h1 | h1
    · exact Or.inr h1
    · exact Or.inl (List.mem_cons_of_mem x h1)
  | x :: xs, i+1, h => by
    rcases List.mem_cons.mp h with h1 | h1
    · exact Or.inl (h1 ▸ List.mem_cons_self x xs)
    · rcases mem_set_elim xs i h1 with h2 | h2
      · exact Or.inl (List.mem_cons_of_mem x h2)
      · exact Or.inr h2

/-! ## Facts about the parsing and validation primitives -/

theorem jsParseInt_empty : jsParseInt "" = none := rfl

theorem ne_empty_of_jsParseInt_some {s : String} {k : Int}
    (h : jsParseInt s = some k) : s ≠ "" := by
  intro hc
  rw [hc, jsParseInt_empty] at h
  cases h

theorem jsNonPos_false_of_pos {k : Int} (h : 0 < k) : jsNonPos (some k) = false := by
  simp [jsNonPos]
  omega

theorem jsPos_some_pos {k : Int} (h : 0 < k) : jsPos (some k) = true := by
  simp [jsPos]
  omega

/-- A cell satisfying every requirement produces no error. -/
theorem cellCheck_good {P : Int} {mx : List (List String)} {i j : Nat}
    (v : String) (k : Int)
    (hv : cellAt mx i j = some v) (hne : v ≠ "") (hk : jsParseInt v = some k)
    (h1 : 1 ≤ k) (h2 : k ≤ P) :
    cellCheck (some P) mx i j = none := by
  simp only [cellCheck, hv, hk]
  rw [if_neg hne]
  exact if_neg (by omega)

/-- An emptied cell produces `'Required'`. -/
theorem cellCheck_empty {numP : Option Int} {mx : List (List String)} {i j : Nat}
    (hv : cellAt mx i j = some "") :
    cellCheck numP mx i j = some "Required" := by
  simp [cellCheck, hv]

/-- An out-of-range cell produces the range message when `P` is positive. -/
theorem cellCheck_out_of_range {P : Int} {mx : List (List String)} {i j : Nat}
    (v : String) (k : Int) (hP : 0 < P)
    (hv : cellAt mx i j = some v) (hk : jsParseInt v = some k)
    (hout : k < 1 ∨ P < k) :
    cellCheck (some P) mx i j = some ("Must be between 1 and " ++ toString P) := by
  simp only [cellCheck, hv, hk]
  rw [if_neg (ne_empty_of_jsParseInt_some hk)]
  exact if_pos ⟨hP, hout⟩

/-- With positive dimensions and no failing cell, the matrix error object
stays empty. -/
theorem matrixErrorsList_nil {N M : Int} (numP : Option Int)
    (mx : List (List String)) (hN : 0 < N) (hM : 0 < M)
    (h : ∀ i j, i < N.toNat → j < M.toNat → cellCheck numP mx i j = none) :
    matrixErrorsList (some N) (some M) numP mx = [] := by
  rw [matrixErrorsList, if_pos (by rw [jsPos_some_pos hN, jsPos_some_pos hM]; rfl)]
  exact flatten_range_map_nil _ _ (fun i hi =>
    filterMap_range_nil _ _ (fun j hj => by
      rw [h i j hi hj]; rfl))

/-- With positive dimensions and exactly one failing cell, the matrix
error object holds exactly that cell's entry. -/
theorem matrixErrorsList_single {N M : Int} (numP : Option Int)
    (mx : List (List String)) (i0 j0 : Nat) (msg : String)
    (hN : 0 < N) (hM : 0 < M) (hi0 : i0 < N.toNat) (hj0 : j0 < M.toNat)
    (hbad : cellCheck numP mx i0 j0 = some msg)
    (hgood : ∀ i j, i < N.toNat → j < M.toNat → ¬(i = i0 ∧ j = j0) →
      cellCheck numP mx i j = none) :
    matrixErrorsList (some N) (some M) numP mx = [(cellKey i0 j0, msg)] := by
  rw [matrixErrorsList, if_pos (by rw [jsPos_some_pos hN, jsPos_some_pos hM]; rfl)]
  simp only [jsToNat]
  exact (flatten_range_map_single _ N.toNat i0 hi0 (fun i hi hne =>
    filterMap_range_nil _ _ (fun j hj => by
      rw [hgood i j hi hj (fun hc => hne hc.1)]; rfl))).trans
    (filterMap_range_single _ _ M.toNat j0 hj0 (by rw [hbad]; rfl)
      (fun j hj hne => by rw [hgood i0 j hi0 hj (fun hc => hne hc.2)]; rfl))

theorem cellCheck_congr {numP : Option Int} {mx mx2 : List (List String)}
    {i j : Nat} (h : cellAt mx2 i j = cellAt mx i j) :
    cellCheck numP mx2 i j = cellCheck numP mx i j := by
  rw [cellCheck, cellCheck, h]

/-! ## Claims -/

/-- C1: with `N`, `M`, `P` parsing as positive integers and every cell
within the `N×M` bounds a non-empty string parsing into `[1, P]`,
`validateForm` returns `true` with an empty error object; emptying or
mis-ranging exactly one in-bounds cell makes it return `false` with an
error map holding exactly that cell's `"i-j"` key and no other. -/
theorem claim_C1 (n m p : String) (mx : List (List String)) (N M P : Int)
    (hn : jsParseInt n = some N) (hN : 0 < N)
    (hm : jsParseInt m = some M) (hM : 0 < M)
    (hp : jsParseInt p = some P) (hP : 0 < P)
    (hcells : ∀ i j, i < N.toNat → j < M.toNat →
      ∃ v k, cellAt mx i j = some v ∧ v ≠ "" ∧ jsParseInt v = some k ∧
        1 ≤ k ∧ k ≤ P) :
    validateForm n m p mx = (true, ⟨none, none, none, none⟩) ∧
    (∀ (mx2 : List (List String)) (i0 j0 : Nat), i0 < N.toNat → j0 < M.toNat →
      (∀ i j, i < N.toNat → j < M.toNat → ¬(i = i0 ∧ j = j0) →
        cellAt mx2 i j = cellAt mx i j) →
      (cellAt mx2 i0 j0 = some "" ∨
        ∃ v k, cellAt mx2 i0 j0 = some v ∧ jsParseInt v = some k ∧
          (k < 1 ∨ P < k)) →
      (validateForm n m p mx2).1 = false ∧
      ∃ msg, (validateForm n m p mx2).2 =
        ⟨none, none, none, some [(cellKey i0 j0, msg)]⟩) := by
  have hnne := ne_empty_of_jsParseInt_some hn
  have hmne := ne_empty_of_jsParseInt_some hm
  have hpne := ne_empty_of_jsParseInt_some hp
  constructor
  · have hmtx : matrixErrorsList (some N) (some M) (some P) mx = [] :=
      matrixErrorsList_nil (some P) mx hN hM (fun i j hi hj => by
        obtain ⟨v, k, hv, hvne, hk, h1, h2⟩ := hcells i j hi hj
        exact cellCheck_good v k hv hvne hk h1 h2)
    simp only [validateForm, hn, hm, hp, hmtx]
    simp [hnne, hmne, hpne, jsNonPos_false_of_pos hN,
      jsNonPos_false_of_pos hM, jsNonPos_false_of_pos hP]
  · intro mx2 i0 j0 hi0 hj0 hsame hbad
    have hgood : ∀ i j, i < N.toNat → j < M.toNat → ¬(i = i0 ∧ j = j0) →
        cellCheck (some P) mx2 i j = none := by
      intro i j hi hj hne
      rw [cellCheck_congr (hsame i j hi hj hne)]
      obtain ⟨v, k, hv, hvne, hk, h1, h2⟩ := hcells i j hi hj
      exact cellCheck_good v k hv hvne hk h1 h2
    obtain ⟨msg, hmsg⟩ : ∃ msg, cellCheck (some P) mx2 i0 j0 = some msg := by
      rcases hbad with hempty | ⟨v, k, hv, hk, hout⟩
      · exact ⟨_, cellCheck_empty hempty⟩
      · exact ⟨_, cellCheck_out_of_range v k hP hv hk hout⟩
    have hmtx :=
      matrixErrorsList_single (some P) mx2 i0 j0 msg hN hM hi0 hj0 hmsg hgood
    have hval : validateForm n m p mx2 =
        (false, ⟨none, none, none, some [(cellKey i0 j0, msg)]⟩) := by
      simp only [validateForm, hn, hm, hp, hmtx]
      simp [hnne, hmne, hpne, jsNonPos_false_of_pos hN,
        jsNonPos_false_of_pos hM, jsNonPos_false_of_pos hP]
    rw [hval]
    exact ⟨rfl, msg, rfl⟩

theorem claim_C1_witness :
    (validateForm "1" "1" "1" [["1"]]).1 = true ∧
    (validateForm "1" "1" "1" [[""]]).1 = false := by
  have h := claim_C1 "1" "1" "1" [["1"]] 1 1 1 rfl (by decide) rfl (by decide)
    rfl (by decide)
    (fun i j hi hj => by
      have hi0 : i = 0 := Nat.lt_one_iff.mp hi
      have hj0 : j = 0 := Nat.lt_one_iff.mp hj
      subst hi0; subst hj0
      exact ⟨"1", 1, rfl, by decide, rfl, by decide, by decide⟩)
  refine ⟨by rw [h.1], ?_⟩
  exact (h.2 [[""]] 0 0 (by decide) (by decide)
    (fun i j hi hj hne =>
      absurd ⟨Nat.lt_one_iff.mp hi, Nat.lt_one_iff.mp hj⟩ hne)
    (Or.inl rfl)).1

theorem resizeMatrix_cell (numN numM : Nat) (prev : List (List String))
    (i j : Nat) (hi : i < numN) (hj : j < numM) :
    cellAt (resizeMatrix numN numM prev) i j = some ((cellAt prev i j).getD "") := by
  rw [cellAt, resizeMatrix, getElem?_range_map, if_pos hi]
  simp only [Option.some_bind]
  rw [getElem?_range_map, if_pos hj]

theorem runResizeEffect_matrix_of_pos {st : FormState} {N M : Int}
    (hn : jsParseInt st.n = some N) (hN : 0 < N)
    (hm : jsParseInt st.m = some M) (hM : 0 < M) :
    (runResizeEffect st).matrix = resizeMatrix N.toNat M.toNat st.matrix := by
  rw [runResizeEffect]
  rw [hn, hm, if_pos (by rw [jsPos_some_pos hN, jsPos_some_pos hM]; rfl)]
  cases st.validationErrors.matrix <;> rfl

/-- C2: after changing `N` or `M` to positive parsed values, the resize
effect yields an exactly `numN × numM` matrix whose cells keep every
previously entered value defined at an index valid in both shapes and are
empty everywhere else. -/
theorem claim_C2 (st : FormState) (N M : Int)
    (hn : jsParseInt st.n = some N) (hN : 0 < N)
    (hm : jsParseInt st.m = some M) (hM : 0 < M) :
    (runResizeEffect st).matrix.length = N.toNat ∧
    (∀ row ∈ (runResizeEffect st).matrix, row.length = M.toNat) ∧
    (∀ i j, i < N.toNat → j < M.toNat →
      cellAt (runResizeEffect st).matrix i j =
        some ((cellAt st.matrix i j).getD "")) := by
  rw [runResizeEffect_matrix_of_pos hn hN hm hM]
  refine ⟨by simp [resizeMatrix], ?_, ?_⟩
  · intro row hrow
    rw [resizeMatrix] at hrow
    obtain ⟨i, hi, hrow⟩ := List.mem_map.mp hrow
    rw [← hrow]
    simp
  · intro i j hi hj
    exact resizeMatrix_cell N.toNat M.toNat st.matrix i j hi hj

theorem claim_C2_witness :
    (runResizeEffect { initialState with n := "2", m := "3", matrix := [["4"]] }).matrix.length = 2 ∧
    cellAt (runResizeEffect { initialState with n := "2", m := "3", matrix := [["4"]] }).matrix 0 0 = some "4" ∧
    cellAt (runResizeEffect { initialState with n := "2", m := "3", matrix := [["4"]] }).matrix 1 2 = some "" := by
  have h := claim_C2 { initialState with n := "2", m := "3", matrix := [["4"]] }
    2 3 rfl (by decide) rfl (by decide)
  refine ⟨h.1, ?_, ?_⟩
  · rw [h.2.2 0 0 (by decide) (by decide)]; rfl
  · rw [h.2.2 1 2 (by decide) (by decide)]; rfl

/-- C6: a change event delivering `"007"` to the N field stores `"7"`
(leading zeros stripped), and one delivering `"0"` leaves the stored value
unchanged; likewise for the M and P fields. -/
theorem claim_C6 (field current : String) (ve : ValidationErrors)
    (hf : field = "n" ∨ field = "m" ∨ field = "p") :
    (handleNumericInputChange false field current "007" ve).1 = "7" ∧
    (handleNumericInputChange false field current "0" ve).1 = current := by
  rcases hf with h | h | h <;> subst h <;> exact ⟨rfl, rfl⟩

theorem claim_C6_witness :
    (handleNumericInputChange false "n" "" "007" initialState.validationErrors).1 = "7" ∧
    (handleNumericInputChange false "n" "" "0" initialState.validationErrors).1 = "" :=
  claim_C6 "n" "" initialState.validationErrors (Or.inl rfl)

theorem string_append_ne_empty {a : String} (b : String) (h : a ≠ "") :
    a ++ b ≠ "" := by
  intro hc
  apply h
  have hd := congrArg String.data hc
  rw [String.data_append] at hd
  apply String.ext
  exact (List.append_eq_nil.mp hd).1

/-- The concrete form state of the submission scenario. -/
def c3State : FormState :=
  { initialState with
    n := "2"
    m := "2"
    p := "3"
    matrix := [["1", "2"], ["3", "1"]] }

/-- The mocked success response `{id:5, minimumFuel:12}`. -/
def c3Response : HttpResponse :=
  { ok := true, status := 200, statusText := "OK"
  , body := { raw := "\x7b\"id\":5,\"minimumFuel\":12\x7d"
            , parsed := some (Json.obj [("id", Json.num 5), ("minimumFuel", Json.num 12)]) } }

/-- C3: submitting `N=2, M=2, P=3, matrix=[[1,2],[3,1]]` issues the one
POST with body exactly `{"n":2,"m":2,"p":3,"matrix":[[1,2],[3,1]]}`, and
the mocked `{id:5, minimumFuel:12}` success lands in `result`, so the
alert shows `Calculation ID: 5` and `Minimum Fuel Required: 12`. -/
theorem claim_C3 :
    (handleSubmit c3State c3Response).1.map jsonOfInput =
      some "\x7b\"n\":2,\"m\":2,\"p\":3,\"matrix\":[[1,2],[3,1]]\x7d" ∧
    (handleSubmit c3State c3Response).2.result =
      some (Json.obj [("id", Json.num 5), ("minimumFuel", Json.num 12)]) ∧
    renderResultAlert (handleSubmit c3State c3Response).2 =
      some ("Calculation ID: 5", "Minimum Fuel Required: 12") := by
  refine ⟨rfl, rfl, ?_⟩
  have hres : (handleSubmit c3State c3Response).2.result =
      some (Json.obj [("id", Json.num 5), ("minimumFuel", Json.num 12)]) := rfl
  have hload : (handleSubmit c3State c3Response).2.loading = false := rfl
  rw [renderResultAlert, hres, hload]
  simp only [jsTruthy, renderJsxChild, Json.get]
  norm_num
  constructor
  · simp only [jsString]
    decide
  · rw [show List.lookup "minimumFuel"
        [("id", Json.num 5), ("minimumFuel", Json.num 12)] = some (Json.num 12) from rfl]
    simp only [jsString]
    decide

/-- C4: with a positive parsed search id, a non-2xx lookup response whose
JSON body is `{message:"not found"}` ends the flow with
`searchError = "not found"` and `searchResult` still unset. -/
theorem claim_C4 (st : FormState) (resp : HttpResponse) (k : Int)
    (hid : jsParseInt st.searchId = some k) (hk : 0 < k)
    (hok : resp.ok = false)
    (hbody : resp.body.parsed = some (Json.obj [("message", Json.str "not found")])) :
    (handleSearch st resp).2.searchError = some "not found" ∧
    (handleSearch st resp).2.searchResult = none := by
  have hinv : searchIdInvalid st.searchId = false := by
    rw [searchIdInvalid, hid]
    simp
    omega
  have hmsg : searchErrorMessage resp.status resp.statusText resp.body = "not found" := by
    simp only [searchErrorMessage, hbody]
    simp [jsFirstTruthy, jsTruthy, Json.get, jsString]
  have hout : searchOutcome resp = (none, some "not found") := by
    rw [searchOutcome, if_neg (by simp [hok]), hmsg]
    simp [jsOrElse]
  rw [handleSearch, if_neg (by simp [hinv])]
  rw [settleSearchState, hout]
  exact ⟨rfl, rfl⟩

theorem claim_C4_witness :
    (handleSearch { initialState with searchId := "1" }
      { ok := false, status := 404, statusText := "Not Found"
      , body := { raw := "\x7b\"message\":\"not found\"\x7d"
                , parsed := some (Json.obj [("message", Json.str "not found")]) } }).2.searchError
      = some "not found" ∧
    (handleSearch { initialState with searchId := "1" }
      { ok := false, status := 404, statusText := "Not Found"
      , body := { raw := "\x7b\"message\":\"not found\"\x7d"
                , parsed := some (Json.obj [("message", Json.str "not found")]) } }).2.searchResult
      = none :=
  claim_C4 { initialState with searchId := "1" } _ 1 rfl (by decide) rfl rfl

/-- C5 counterexample: for the concrete non-2xx response with the
non-JSON body `<html>oops</html>`, the solve flow's error is not the
raw-text message `HTTP error 500: <html>oops</html>` the claim asserts:
`response.json()` consumed the body stream, so the `response.text()`
fallback rejects and the surfaced message is that `TypeError`'s. -/
theorem claim_C5_counterexample :
    (handleSubmit { c3State with searchId := "1" }
      { ok := false, status := 500, statusText := "Internal Server Error"
      , body := { raw := "<html>oops</html>", parsed := none } }).2.error ≠
      some "HTTP error 500: <html>oops</html>" := by
  decide

/-- C5 (amended): a non-2xx response with a body that is not JSON still
leaves each flow with a present, human-readable error string, but the
solve flow's string is the body-already-read `TypeError` message from
the `response.text()` fallback (the raw body text is unreachable because
`response.json()` already consumed the stream), while the lookup flow
falls back to the status-based message. -/
theorem claim_C5 (st : FormState) (resp : HttpResponse) (k : Int)
    (hval : (validateForm st.n st.m st.p st.matrix).1 = true)
    (hid : jsParseInt st.searchId = some k) (hk : 0 < k)
    (hok : resp.ok = false) (hbody : resp.body.parsed = none) :
    (handleSubmit st resp).2.error =
      some (jsOrElse bodyConsumedErrorMessage
        "An error occurred while communicating with the server.") ∧
    (handleSubmit st resp).2.error.isSome = true ∧
    (handleSearch st resp).2.searchError =
      some ("Error: " ++ toString resp.status ++ " - " ++ resp.statusText) := by
  have hsolve : solveOutcome resp =
      (none, some (jsOrElse bodyConsumedErrorMessage
        "An error occurred while communicating with the server.")) := by
    rw [solveOutcome, if_neg (by simp [hok])]
    rw [show solveCatchMessage resp.status resp.body = bodyConsumedErrorMessage
      from by rw [solveCatchMessage, hbody]]
  refine ⟨?_, ?_, ?_⟩
  · rw [handleSubmit, if_pos hval, settleSolveState, hsolve]
  · rw [handleSubmit, if_pos hval, settleSolveState, hsolve]
    rfl
  · have hinv : searchIdInvalid st.searchId = false := by
      rw [searchIdInvalid, hid]
      simp
      omega
    have hmsg : searchErrorMessage resp.status resp.statusText resp.body =
        "Error: " ++ toString resp.status ++ " - " ++ resp.statusText := by
      rw [searchErrorMessage, hbody]
    have hout : searchOutcome resp =
        (none, some ("Error: " ++ toString resp.status ++ " - " ++ resp.statusText)) := by
      rw [searchOutcome, if_neg (by simp [hok]), hmsg]
      rw [jsOrElse, if_neg]
      exact string_append_ne_empty _ (string_append_ne_empty _
        (string_append_ne_empty _ (by decide)))
    rw [handleSearch, if_neg (by simp [hinv])]
    rw [settleSearchState, hout]

theorem claim_C5_witness :
    (handleSubmit { c3State with searchId := "1" }
      { ok := false, status := 500, statusText := "Internal Server Error"
      , body := { raw := "<html>oops</html>", parsed := none } }).2.error
      = some bodyConsumedErrorMessage ∧
    (handleSearch { c3State with searchId := "1" }
      { ok := false, status := 500, statusText := "Internal Server Error"
      , body := { raw := "<html>oops</html>", parsed := none } }).2.searchError
      = some "Error: 500 - Internal Server Error" := by
  have h := claim_C5 { c3State with searchId := "1" }
    { ok := false, status := 500, statusText := "Internal Server Error"
    , body := { raw := "<html>oops</html>", parsed := none } }
    1 rfl rfl (by decide) rfl rfl
  exact ⟨h.1.trans (by rfl), h.2.2.trans (by rfl)⟩

/-- C8: when the search id does not parse as a positive integer,
`handleSearch` only sets the guard message into `searchError`, issues no
request, and leaves every other state cell exactly as it was. -/
theorem claim_C8 (st : FormState) (resp : HttpResponse)
    (h : jsParseInt st.searchId = none ∨
      ∃ v, jsParseInt st.searchId = some v ∧ v ≤ 0) :
    (handleSearch st resp).1 = none ∧
    (handleSearch st resp).2 =
      { st with searchError := some "Please enter a valid positive ID number" } := by
  have hinv : searchIdInvalid st.searchId = true := by
    rcases h with h | ⟨v, hv, hle⟩
    · rw [searchIdInvalid, h]
    · rw [searchIdInvalid, hv]
      simpa using hle
  rw [handleSearch, if_pos (by rw [hinv])]
  exact ⟨rfl, rfl⟩

theorem claim_C8_witness :
    (handleSearch { initialState with searchId := "0" }
      { ok := true, status := 200, statusText := "OK"
      , body := { raw := "", parsed := none } }).1 = none ∧
    (handleSearch { initialState with searchId := "0" }
      { ok := true, status := 200, statusText := "OK"
      , body := { raw := "", parsed := none } }).2 =
      { { initialState with searchId := "0" } with
        searchError := some "Please enter a valid positive ID number" } :=
  claim_C8 { initialState with searchId := "0" } _ (Or.inr ⟨0, rfl, by decide⟩)

/-- C10: the Result ID field stores any string unfiltered, and whenever
the stored string's `parseInt` value is a positive `k` (as for `"3.9"`,
`"3abc"`, `"007"`), `handleSearch` issues the GET parameterized by `k`. -/
theorem claim_C10 (st : FormState) (v : String) (resp : HttpResponse) (k : Int)
    (hid : jsParseInt st.searchId = some k) (hk : 0 < k) :
    (stepSearchIdChange st v).searchId = v ∧
    (handleSearch st resp).1 = some k := by
  refine ⟨rfl, ?_⟩
  have hinv : searchIdInvalid st.searchId = false := by
    rw [searchIdInvalid, hid]
    simp
    omega
  rw [handleSearch, if_neg (by simp [hinv]), hid]

theorem claim_C10_witness :
    (stepSearchIdChange { initialState with searchId := "3.9" } "12 monkeys").searchId = "12 monkeys" ∧
    (handleSearch { initialState with searchId := "3.9" }
      { ok := true, status := 200, statusText := "OK"
      , body := { raw := "", parsed := none } }).1 = some 3 ∧
    (handleSearch { initialState with searchId := "3abc" }
      { ok := true, status := 200, statusText := "OK"
      , body := { raw := "", parsed := none } }).1 = some 3 ∧
    (handleSearch { initialState with searchId := "007" }
      { ok := true, status := 200, statusText := "OK"
      , body := { raw := "", parsed := none } }).1 = some 7 :=
  ⟨(claim_C10 { initialState with searchId := "3.9" } "12 monkeys"
      { ok := true, status := 200, statusText := "OK"
      , body := { raw := "", parsed := none } } 3 rfl (by decide)).1,
   (claim_C10 { initialState with searchId := "3.9" } "x"
      { ok := true, status := 200, statusText := "OK"
      , body := { raw := "", parsed := none } } 3 rfl (by decide)).2,
   (claim_C10 { initialState with searchId := "3abc" } "x"
      { ok := true, status := 200, statusText := "OK"
      , body := { raw := "", parsed := none } } 3 rfl (by decide)).2,
   (claim_C10 { initialState with searchId := "007" } "x"
      { ok := true, status := 200, statusText := "OK"
      , body := { raw := "", parsed := none } } 7 rfl (by decide)).2⟩

/-! ## Matrix shape invariant (C9) -/

/-- The matrix-shape invariant the resize effect maintains: with both
dimensions parsing positive the grid is exactly `numN × numM`, otherwise
it is empty. -/
def shapeOK (n m : String) (mx : List (List String)) : Prop :=
  if (jsPos (jsParseInt n) && jsPos (jsParseInt m)) = true then
    mx.length = jsToNat (jsParseInt n) ∧
      ∀ row ∈ mx, row.length = jsToNat (jsParseInt m)
  else mx = []

/-- The invariant read off a form state. -/
def MatrixInv (st : FormState) : Prop :=
  shapeOK st.n st.m st.matrix

theorem resizeMatrix_length (numN numM : Nat) (prev : List (List String)) :
    (resizeMatrix numN numM prev).length = numN := by
  simp [resizeMatrix]

theorem resizeMatrix_rows (numN numM : Nat) (prev : List (List String)) :
    ∀ row ∈ resizeMatrix numN numM prev, row.length = numM := by
  intro row hrow
  rw [resizeMatrix] at hrow
  obtain ⟨i, hi, hrow⟩ := List.mem_map.mp hrow
  rw [← hrow]
  simp

theorem runResizeEffect_matrix (st : FormState) :
    (runResizeEffect st).matrix =
      if (jsPos (jsParseInt st.n) && jsPos (jsParseInt st.m)) = true then
        resizeMatrix (jsToNat (jsParseInt st.n)) (jsToNat (jsParseInt st.m)) st.matrix
      else [] := by
  simp only [runResizeEffect]
  split
  · split <;> rfl
  · rfl

theorem runResizeEffect_n (st : FormState) : (runResizeEffect st).n = st.n := by
  simp only [runResizeEffect]
  split
  · split <;> rfl
  · rfl

theorem runResizeEffect_m (st : FormState) : (runResizeEffect st).m = st.m := by
  simp only [runResizeEffect]
  split
  · split <;> rfl
  · rfl

theorem shapeOK_runResizeEffect (st : FormState) : MatrixInv (runResizeEffect st) := by
  rw [MatrixInv, runResizeEffect_n, runResizeEffect_m, runResizeEffect_matrix, shapeOK]
  by_cases h : (jsPos (jsParseInt st.n) && jsPos (jsParseInt st.m)) = true
  · rw [if_pos h, if_pos h]
    exact ⟨resizeMatrix_length _ _ _, resizeMatrix_rows _ _ _⟩
  · rw [if_neg h, if_neg h]

theorem shapeOK_set {n m : String} {mx : List (List String)}
    (i j : Nat) (v : String) (hi : i < mx.length) (h : shapeOK n m mx) :
    shapeOK n m (mx.set i ((mx.getD i []).set j v)) := by
  rw [shapeOK] at h ⊢
  by_cases hc : (jsPos (jsParseInt n) && jsPos (jsParseInt m)) = true
  · rw [if_pos hc] at h ⊢
    obtain ⟨hlen, hrows⟩ := h
    refine ⟨by rw [List.length_set]; exact hlen, ?_⟩
    intro row hrow
    rcases mem_set_elim _ _ hrow with hmem | heq
    · exact hrows row hmem
    · subst heq
      rw [List.length_set]
      have hgd : mx.getD i [] = mx[i] := by
        rw [List.getD_eq_getElem?_getD, List.getElem?_eq_getElem hi]
        rfl
      rw [hgd]
      exact hrows mx[i] (List.getElem_mem hi)
  · rw [if_neg hc] at h
    subst h
    exact absurd hi (by simp)

theorem matrixInv_step {a : Act} {s s' : Machine}
    (hstep : MStep a s s') (h : MatrixInv s.form) : MatrixInv s'.form := by
  cases hstep with
  | editN s v =>
    show MatrixInv (stepChangeN s.form v)
    simp only [stepChangeN]
    split
    · rename_i hc
      show shapeOK _ s.form.m s.form.matrix
      rw [hc]
      exact h
    · exact shapeOK_runResizeEffect _
  | editM s v =>
    show MatrixInv (stepChangeM s.form v)
    simp only [stepChangeM]
    split
    · rename_i hc
      show shapeOK s.form.n _ s.form.matrix
      rw [hc]
      exact h
    · exact shapeOK_runResizeEffect _
  | editP s v => exact h
  | editCell s i j v hi hj =>
    show MatrixInv (handleMatrixCellChange i j v s.form)
    simp only [handleMatrixCellChange]
    split
    · exact shapeOK_set i j v hi h
    · exact h
  | editSearchId s v => exact h
  | blurValidate s => exact h
  | clickSolveValid s hd hv => exact h
  | clickSolveInvalid s hd hv => exact h
  | solveSettled s resp hp => exact h
  | solveRejected s msg hp => exact h
  | clickSearchInvalid s hd hv => exact h
  | clickSearchValid s hd hv => exact h
  | searchSettled s resp hp => exact h
  | searchRejected s msg hp => exact h

theorem matrixInv_reach : ∀ {ms : Machine}, Reach ms → MatrixInv ms.form := by
  intro ms h
  induction h with
  | init =>
    rw [MatrixInv, shapeOK, if_neg (by decide)]
    rfl
  | step h hs ih => exact matrixInv_step hs ih

/-- C9: with `N` or `M` not parsing positive, the resize effect clears the
matrix to `[]` (and a later resize starts over from empty cells, so old
values are gone); consequently every reachable state's matrix is either
empty or exactly `numN` rows of `numM` cells. -/
theorem claim_C9 :
    (∀ st : FormState,
      (jsPos (jsParseInt st.n) && jsPos (jsParseInt st.m)) = false →
      (runResizeEffect st).matrix = []) ∧
    (∀ numN numM i j : Nat, i < numN → j < numM →
      cellAt (resizeMatrix numN numM []) i j = some "") ∧
    (∀ ms : Machine, Reach ms →
      ms.form.matrix = [] ∨
      (ms.form.matrix.length = jsToNat (jsParseInt ms.form.n) ∧
        ∀ row ∈ ms.form.matrix, row.length = jsToNat (jsParseInt ms.form.m))) := by
  refine ⟨?_, ?_, ?_⟩
  · intro st hfalse
    rw [runResizeEffect_matrix, if_neg (by simp [hfalse])]
  · intro numN numM i j hi hj
    rw [resizeMatrix_cell numN numM [] i j hi hj]
    rfl
  · intro ms h
    have hinv := matrixInv_reach h
    rw [MatrixInv, shapeOK] at hinv
    by_cases hc : (jsPos (jsParseInt ms.form.n) && jsPos (jsParseInt ms.form.m)) = true
    · rw [if_pos hc] at hinv
      exact Or.inr hinv
    · rw [if_neg hc] at hinv
      exact Or.inl hinv

theorem claim_C9_witness :
    (runResizeEffect initialState).matrix = [] ∧
    cellAt (resizeMatrix 2 2 []) 0 0 = some "" ∧
    (initialMachine.form.matrix = [] ∨
      (initialMachine.form.matrix.length = jsToNat (jsParseInt initialMachine.form.n) ∧
        ∀ row ∈ initialMachine.form.matrix,
          row.length = jsToNat (jsParseInt initialMachine.form.m))) :=
  ⟨claim_C9.1 initialState (by decide),
   claim_C9.2.1 2 2 0 0 (by decide) (by decide),
   claim_C9.2.2 initialMachine Reach.init⟩

/-! ## Solve-flow serialization (C7) -/

theorem runResizeEffect_loading (st : FormState) :
    (runResizeEffect st).loading = st.loading := by
  simp only [runResizeEffect]
  split
  · split <;> rfl
  · rfl

theorem stepChangeN_loading (st : FormState) (v : String) :
    (stepChangeN st v).loading = st.loading := by
  simp only [stepChangeN]
  split
  · rfl
  · rw [runResizeEffect_loading]

theorem stepChangeM_loading (st : FormState) (v : String) :
    (stepChangeM st v).loading = st.loading := by
  simp only [stepChangeM]
  split
  · rfl
  · rw [runResizeEffect_loading]

theorem handleMatrixCellChange_loading (i j : Nat) (v : String) (st : FormState) :
    (handleMatrixCellChange i j v st).loading = st.loading := by
  simp only [handleMatrixCellChange]
  split <;> rfl

/-- One step preserves the pending-implies-loading invariant. -/
theorem pendingInv_step {a : Act} {s s' : Machine} (hstep : MStep a s s')
    (h : s.solvePending = true → s.form.loading = true) :
    s'.solvePending = true → s'.form.loading = true := by
  cases hstep with
  | editN s v =>
      intro hp
      rw [show ({ s with form := stepChangeN s.form v } : Machine).form.loading
        = (stepChangeN s.form v).loading from rfl, stepChangeN_loading]
      exact h hp
  | editM s v =>
      intro hp
      rw [show ({ s with form := stepChangeM s.form v } : Machine).form.loading
        = (stepChangeM s.form v).loading from rfl, stepChangeM_loading]
      exact h hp
  | editP s v => exact h
  | editCell s i j v hi hj =>
      intro hp
      rw [show ({ s with form := handleMatrixCellChange i j v s.form } : Machine).form.loading
        = (handleMatrixCellChange i j v s.form).loading from rfl,
        handleMatrixCellChange_loading]
      exact h hp
  | editSearchId s v => exact h
  | blurValidate s => exact h
  | clickSolveValid s hd hv => intro hp; rfl
  | clickSolveInvalid s hd hv => exact h
  | solveSettled s resp hp2 => intro hp; cases hp
  | solveRejected s msg hp2 => intro hp; cases hp
  | clickSearchInvalid s hd hv => exact h
  | clickSearchValid s hd hv => exact h
  | searchSettled s resp hp2 => exact h
  | searchRejected s msg hp2 => exact h

/-- While a solve request is outstanding, `loading` is true in every
reachable machine state. -/
theorem solvePending_loading : ∀ {ms : Machine}, Reach ms →
    ms.solvePending = true → ms.form.loading = true := by
  intro ms h
  induction h with
  | init => intro hp; cases hp
  | step h hs ih => exact pendingInv_step hs ih

/-- C7: from the moment a validated submission starts until its fetch
settles, `loading` is true and the Solve button is disabled, so no second
click (and hence no second request) can occur while one is pending; once
the fetch resolves or rejects, `loading` is false again and the button
re-enables whenever the form is still potentially valid. -/
theorem claim_C7 :
    (∀ ms : Machine, Reach ms → ms.solvePending = true →
      ms.form.loading = true ∧ solveDisabled ms.form = true) ∧
    (∀ ms ms' : Machine, Reach ms → ms.solvePending = true →
      ¬ MStep Act.clickSolve ms ms') ∧
    (∀ (st : FormState) (resp : HttpResponse),
      (settleSolveState st resp).loading = false ∧
      (isFormPotentiallyValid (settleSolveState st resp) = true →
        solveDisabled (settleSolveState st resp) = false)) ∧
    (∀ (st : FormState) (msg : String),
      (rejectSolveState st msg).loading = false ∧
      (isFormPotentiallyValid (rejectSolveState st msg) = true →
        solveDisabled (rejectSolveState st msg) = false)) := by
  refine ⟨?_, ?_, ?_, ?_⟩
  · intro ms h hp
    have hl := solvePending_loading h hp
    refine ⟨hl, ?_⟩
    rw [solveDisabled, hl]
    rfl
  · intro ms ms' h hp hstep
    have hl := solvePending_loading h hp
    have hdis : solveDisabled ms.form = true := by rw [solveDisabled, hl]; rfl
    cases hstep with
    | clickSolveValid s hd hv => rw [hdis] at hd; cases hd
    | clickSolveInvalid s hd hv => rw [hdis] at hd; cases hd
  · intro st resp
    refine ⟨rfl, ?_⟩
    intro hv
    rw [solveDisabled, hv]
    rfl
  · intro st msg
    refine ⟨rfl, ?_⟩
    intro hv
    rw [solveDisabled, hv]
    rfl

theorem claim_C7_witness :
    ∃ ms : Machine, Reach ms ∧ ms.solvePending = true ∧
      ms.form.loading = true ∧ solveDisabled ms.form = true := by
  refine ⟨_, Reach.step (Reach.step (Reach.step (Reach.step (Reach.step Reach.init
      (MStep.editN _ "1")) (MStep.editM _ "1")) (MStep.editP _ "1"))
      (MStep.editCell _ 0 0 "1" (by decide) (by decide)))
      (MStep.clickSolveValid _ (by decide) (by decide)), ?_⟩
  have h := claim_C7.1 _ (Reach.step (Reach.step (Reach.step (Reach.step (Reach.step Reach.init
      (MStep.editN initialMachine "1")) (MStep.editM _ "1")) (MStep.editP _ "1"))
      (MStep.editCell _ 0 0 "1" (by decide) (by decide)))
      (MStep.clickSolveValid _ (by decide) (by decide))) rfl
  exact ⟨rfl, h⟩
